import Mathlib

/-!
Verification of the process-orchestration core of the `open-cowork` desktop
shell (Rust, Tauri).  The definitions below are a shallow embedding of the
Rust sources:

* `truncate_output`           — `src/src-tauri/src/lib.rs` 862-869
* `EngineState`, `EngineManager.snapshot_locked`, `EngineManager.stop_locked`
                              — `src/packages/desktop/src-tauri/src/engine/manager.rs`
* `OwpenbotState`, `OwpenbotManager.snapshot_locked`, `OwpenbotManager.stop_locked`
                              — `src/packages/desktop/src-tauri/src/owpenbot/manager.rs`
* `wait_for_openwrk`          — `src/packages/desktop/src-tauri/src/openwrk/mod.rs` 114-126
* `maybe_infer_xdg_home`, candidate dirs, `resolve_in_path`
                              — `src/packages/desktop/src-tauri/src/paths.rs`
* `resolve_sidecar_candidate`, `resolve_engine_path`
                              — `src/packages/desktop/src-tauri/src/engine/doctor.rs` 55-112
* `resolve_opencode_executable` — `src/src-tauri/src/lib.rs` 896-929
* `engine_start` (direct mode)  — `src/packages/desktop/src-tauri/src/commands/engine.rs` 177-592

Effectful operations (filesystem probes, environment variables, process
spawning, HTTP health probes, the warm-up polls of the drain task's shared
`OutputState`) are modelled as explicit parameters recording their outcomes,
and the sequence of world-changing operations a run performs is returned as
an explicit trace.
-/

namespace OpenCowork

/-! ## Rust string model

Rust `String::len` is the UTF-8 byte length; `str::chars().count()` is the
character count.  We model Rust strings with Lean `String` (a list of
unicode scalar values) and recover the byte length from `Char.utf8Size`. -/

/-- Model of Rust `str::len`: the UTF-8 byte length of a character list. -/
def utf8Len (l : List Char) : Nat := (l.map Char.utf8Size).sum

/-- Model of Rust `str::trim`: strip leading and trailing whitespace. -/
def rustTrim (s : String) : String :=
  String.mk
    (((s.data.dropWhile Char.isWhitespace).reverse.dropWhile
        Char.isWhitespace).reverse)

/-- Model of Rust `str::eq_ignore_ascii_case`. -/
def eqIgnoreAsciiCase (a b : String) : Bool :=
  a.data.map Char.toLower == b.data.map Char.toLower

/-- Model of `truncate_output` (`src-tauri/src/lib.rs` 862-869):

    fn truncate_output(input: &str, max_chars: usize) -> String {
      if input.len() <= max_chars { return input.to_string(); }
      // Keep tail to preserve error context.
      input.chars().skip(input.chars().count() - max_chars).collect()
    }

`input.len()` counts bytes while the skip count uses characters, so when the
byte length exceeds `max_chars` but the character count is below it the
`usize` subtraction `input.chars().count() - max_chars` underflows: with
overflow checks this panics, which we model by returning `none`. -/
def truncate_output (input : String) (max_chars : Nat) : Option String :=
  if utf8Len input.data ≤ max_chars then
    some input
  else if input.data.length < max_chars then
    none
  else
    some (String.mk (input.data.drop (input.data.length - max_chars)))

/-! ## Process handles -/

/-- Outcome of the non-blocking `std::process::Child::try_wait` probe. -/
inductive TryWaitResult
  | exited
  | stillRunning
  | probeError
  deriving DecidableEq, Repr

/-- Model of a `std::process::Child` handle: the OS pid together with the
(fixed) answer its `try_wait` probe returns. -/
structure ChildProc where
  pid : Nat
  tryWait : TryWaitResult
  deriving DecidableEq, Repr

/-- Model of a `tauri_plugin_shell` `CommandChild` handle (pid only; its
liveness is tracked by the manager's `child_exited` flag). -/
structure CommandChild where
  pid : Nat
  deriving DecidableEq, Repr

/-- Process operations a manager performs on a child handle. -/
inductive ProcOp
  | kill (pid : Nat)
  | waitFor (pid : Nat)
  deriving DecidableEq, Repr

/-! ## Engine manager (`engine/manager.rs`, fields extended as used by
`commands/engine.rs`) -/

/-- Runtime mode requested for a start (`types.rs` / `commands/engine.rs`). -/
inductive EngineRuntime
  | direct
  | openwrk
  deriving DecidableEq, Repr

/-- The engine manager's mutex-guarded `EngineState`.  The first seven fields
are those of `engine/manager.rs`; `runtime`, `child_exited` and the two
credential fields are the additional fields `commands/engine.rs` reads and
writes on the same state. -/
structure EngineState where
  child : Option ChildProc := none
  project_dir : Option String := none
  hostname : Option String := none
  port : Option Nat := none
  base_url : Option String := none
  last_stdout : Option String := none
  last_stderr : Option String := none
  runtime : EngineRuntime := .direct
  child_exited : Bool := false
  opencode_username : Option String := none
  opencode_password : Option String := none
  deriving DecidableEq, Repr

/-- The status payload `EngineManager::snapshot_locked` constructs
(`types.rs` `EngineInfo`). -/
structure EngineInfo where
  running : Bool
  base_url : Option String
  project_dir : Option String
  hostname : Option String
  port : Option Nat
  pid : Option Nat
  last_stdout : Option String
  last_stderr : Option String
  deriving DecidableEq, Repr

namespace EngineManager

/-- Model of `EngineManager::snapshot_locked` (`engine/manager.rs` 23-46):
probe an existing child with `try_wait`; if it exited, clear the handle and
report not-running; always return the stored connection info and output
tails.  Returns the info together with the state after the call. -/
def snapshot_locked (state : EngineState) : EngineInfo × EngineState :=
  let probe : (Bool × Option Nat) × EngineState :=
    match state.child with
    | none => ((false, none), state)
    | some child =>
      match child.tryWait with
      | .exited => ((false, none), { state with child := none })
      | .stillRunning => ((true, some child.pid), state)
      | .probeError => ((true, some child.pid), state)
  (⟨probe.1.1, probe.2.base_url, probe.2.project_dir, probe.2.hostname,
    probe.2.port, probe.1.2, probe.2.last_stdout, probe.2.last_stderr⟩,
   probe.2)

/-- Model of `EngineManager::stop_locked` (`engine/manager.rs` 48-59): kill
and wait on an existing child, then clear the connection fields and output
buffers.  The returned list records the process operations performed. -/
def stop_locked (state : EngineState) : EngineState × List ProcOp :=
  let ops : List ProcOp :=
    match state.child with
    | none => []
    | some child => [.kill child.pid, .waitFor child.pid]
  ({ state with
      child := none
      base_url := none
      project_dir := none
      hostname := none
      port := none
      last_stdout := none
      last_stderr := none },
   ops)

end EngineManager

/-! ## Owpenbot manager (`owpenbot/manager.rs`) -/

/-- The owpenbot manager's mutex-guarded `OwpenbotState`. -/
structure OwpenbotState where
  child : Option CommandChild := none
  child_exited : Bool := false
  workspace_path : Option String := none
  opencode_url : Option String := none
  qr_data : Option String := none
  whatsapp_linked : Bool := false
  telegram_configured : Bool := false
  last_stdout : Option String := none
  last_stderr : Option String := none
  deriving DecidableEq, Repr

/-- The status payload `OwpenbotManager::snapshot_locked` constructs. -/
structure OwpenbotInfo where
  running : Bool
  workspace_path : Option String
  opencode_url : Option String
  qr_data : Option String
  whatsapp_linked : Bool
  telegram_configured : Bool
  pid : Option Nat
  last_stdout : Option String
  last_stderr : Option String
  deriving DecidableEq, Repr

namespace OwpenbotManager

/-- Model of `OwpenbotManager::snapshot_locked` (`owpenbot/manager.rs`
26-47): an existing child whose `child_exited` flag is set is reaped (handle
cleared, reported not-running); otherwise report running with its pid. -/
def snapshot_locked (state : OwpenbotState) : OwpenbotInfo × OwpenbotState :=
  let probe : (Bool × Option Nat) × OwpenbotState :=
    match state.child with
    | none => ((false, none), state)
    | some child =>
      if state.child_exited then ((false, none), { state with child := none })
      else ((true, some child.pid), state)
  (⟨probe.1.1, probe.2.workspace_path, probe.2.opencode_url, probe.2.qr_data,
    probe.2.whatsapp_linked, probe.2.telegram_configured, probe.1.2,
    probe.2.last_stdout, probe.2.last_stderr⟩,
   probe.2)

/-- Model of `OwpenbotManager::stop_locked` (`owpenbot/manager.rs` 49-61):
kill an existing child, set `child_exited` to `true`, and clear every other
field. -/
def stop_locked (state : OwpenbotState) : OwpenbotState × List ProcOp :=
  let ops : List ProcOp :=
    match state.child with
    | none => []
    | some child => [.kill child.pid]
  ({ state with
      child := none
      child_exited := true
      workspace_path := none
      opencode_url := none
      qr_data := none
      whatsapp_linked := false
      telegram_configured := false
      last_stdout := none
      last_stderr := none },
   ops)

end OwpenbotManager

/-! ## Health waiter (`openwrk/mod.rs` 114-126)

The retry loop performs one `fetch_openwrk_health` probe per iteration while
the deadline has not passed.  We model the run by the list of probe outcomes
the loop observes before the deadline elapses (an empty list models a
timeout that expires before any probe completes). -/

/-- The daemon health payload (`openwrk/mod.rs` `OpenwrkHealth`; only the
`ok` field is inspected by the waiter, the rest is carried along as the
reported opencode port/pid). -/
structure OpenwrkHealth where
  ok : Bool
  opencodePort : Option Nat := none
  opencodePid : Option Nat := none
  deriving DecidableEq, Repr

/-- Loop body of `wait_for_openwrk`: walk the probe outcomes carrying the
`last_error` accumulator; a healthy payload returns immediately, an
unhealthy payload stores `"Openwrk reported unhealthy"`, a probe error
stores its message; when the deadline ends the loop fails with the stored
message, or the bare timeout message when none was stored. -/
def waitLoop : List (Except String OpenwrkHealth) → Option String →
    Except String OpenwrkHealth
  | [], lastError => .error (lastError.getD "Timed out waiting for openwrk")
  | probe :: rest, _ =>
    match probe with
    | .ok health =>
      if health.ok then .ok health
      else waitLoop rest (some "Openwrk reported unhealthy")
    | .error e => waitLoop rest (some e)

/-- Model of `wait_for_openwrk` (`openwrk/mod.rs` 114-126), parameterised by
the probe outcomes observed inside the timeout window. -/
def wait_for_openwrk (probes : List (Except String OpenwrkHealth)) :
    Except String OpenwrkHealth :=
  waitLoop probes none

/-- The failure message `wait_for_openwrk` derives from one probe outcome. -/
def probeMessage : Except String OpenwrkHealth → String
  | .ok _ => "Openwrk reported unhealthy"
  | .error e => e

/-! ## Path resolution

Filesystem probes (`Path::is_file`) and environment lookups are modelled by
explicit functions; `PathBuf::join` with a relative component is modelled as
string concatenation with a separator. -/

/-- Model of `PathBuf::join` for relative components. -/
def pathJoin (base component : String) : String := base ++ "/" ++ component

/-- `OPENCODE_EXECUTABLE` on non-Windows targets. -/
def opencodeExecutable : String := "opencode"

/-- Environment of the search-path/override resolver
(`resolve_opencode_executable`, `src-tauri/src/lib.rs` 896-929): the
`OPENCODE_BIN_PATH` override, the split `PATH` entries, the resolved home
directory and the filesystem's `is_file` answers. -/
structure ResolveEnv where
  opencodeBinPathVar : Option String
  pathEntries : List String
  home : Option String
  isFile : String → Bool

/-- Model of `resolve_in_path` (`paths.rs` 84-92 / `src-tauri/src/lib.rs`
819-827): first `PATH` entry under which the executable name is a file. -/
def resolve_in_path (env : ResolveEnv) (name : String) : Option String :=
  env.pathEntries.findSome? fun dir =>
    let candidate := pathJoin dir name
    if env.isFile candidate then some candidate else none

/-- Model of `candidate_opencode_paths` (`src-tauri/src/lib.rs` 829-845):
the home install dir followed by the fixed Homebrew/Linux locations. -/
def candidate_opencode_paths (home : Option String) : List String :=
  (home.map fun h =>
    pathJoin (pathJoin (pathJoin h ".opencode") "bin") opencodeExecutable).toList ++
  [pathJoin "/opt/homebrew/bin" opencodeExecutable,
   pathJoin "/usr/local/bin" opencodeExecutable,
   pathJoin "/usr/bin" opencodeExecutable,
   pathJoin "/usr/local/bin" opencodeExecutable]

/-- Known-location loop of `resolve_opencode_executable`: first existing
candidate wins, every miss leaves a `"Missing: "` note. -/
def knownLocationLoop (isFile : String → Bool) :
    List String → List String → Option String × Bool × List String
  | [], notes => (none, false, notes)
  | candidate :: rest, notes =>
    if isFile candidate then
      (some candidate, false, notes ++ ["Found at " ++ candidate])
    else
      knownLocationLoop isFile rest (notes ++ ["Missing: " ++ candidate])

/-- Model of `resolve_opencode_executable` (`src-tauri/src/lib.rs` 896-929):
explicit `OPENCODE_BIN_PATH` override first, then `PATH` search, then the
known install locations; every step leaves a diagnostic note. -/
def resolve_opencode_executable (env : ResolveEnv) :
    Option String × Bool × List String :=
  let overrideNotes : Option String × List String :=
    match env.opencodeBinPathVar with
    | none => (none, [])
    | some custom =>
      let trimmed := rustTrim custom
      if trimmed = "" then (none, [])
      else if env.isFile trimmed then
        (some trimmed, ["Using OPENCODE_BIN_PATH: " ++ trimmed])
      else
        (none, ["OPENCODE_BIN_PATH set but missing: " ++ trimmed])
  match overrideNotes with
  | (some path, notes) => (some path, false, notes)
  | (none, notes) =>
    match resolve_in_path env opencodeExecutable with
    | some path => (some path, true, notes ++ ["Found in PATH: " ++ path])
    | none =>
      knownLocationLoop env.isFile (candidate_opencode_paths env.home)
        (notes ++ ["Not found on PATH"])

/-- The candidate list of `resolve_sidecar_candidate`
(`engine/doctor.rs` 66-84): current-binary directory, resource-dir
`sidecars`, resource-dir root, then the dev `src-tauri/sidecars` path. -/
def sidecarCandidates (resourceDir currentBinDir : Option String) :
    List String :=
  (currentBinDir.map fun dir => pathJoin dir opencodeExecutable).toList ++
  (resourceDir.map fun dir =>
    [pathJoin (pathJoin dir "sidecars") opencodeExecutable,
     pathJoin dir opencodeExecutable]).getD [] ++
  [pathJoin "src-tauri/sidecars" opencodeExecutable]

/-- Candidate loop of `resolve_sidecar_candidate`: the first existing file
wins with a `"Using bundled sidecar"` note, every miss leaves a
`"Sidecar missing"` note. -/
def sidecarLoop (isFile : String → Bool) :
    List String → List String → Option String × List String
  | [], notes => (none, notes)
  | candidate :: rest, notes =>
    if isFile candidate then
      (some candidate, notes ++ ["Using bundled sidecar: " ++ candidate])
    else
      sidecarLoop isFile rest (notes ++ ["Sidecar missing: " ++ candidate])

/-- Model of `resolve_sidecar_candidate` (`engine/doctor.rs` 55-96). -/
def resolve_sidecar_candidate (prefer_sidecar : Bool)
    (resourceDir currentBinDir : Option String) (isFile : String → Bool) :
    Option String × List String :=
  if prefer_sidecar then
    sidecarLoop isFile (sidecarCandidates resourceDir currentBinDir) []
  else
    (none, [])

/-- Model of `resolve_engine_path` (`engine/doctor.rs` 98-112): sidecar
resolution first, search-path/override resolution as the fallback, notes
accumulated across both. -/
def resolve_engine_path (prefer_sidecar : Bool)
    (resourceDir currentBinDir : Option String) (env : ResolveEnv) :
    Option String × Bool × List String :=
  let sidecar :=
    resolve_sidecar_candidate prefer_sidecar resourceDir currentBinDir env.isFile
  match sidecar with
  | (some path, notes) => (some path, false, notes)
  | (none, notes) =>
    let fallback := resolve_opencode_executable env
    (fallback.1, fallback.2.1, notes ++ fallback.2.2)

/-! ## XDG home inference (`paths.rs` 56-72) and the spawner's child
environment (`engine/spawn.rs` 32-84) -/

/-- Model of `maybe_infer_xdg_home` (`paths.rs` 56-72): `none` when the
variable is already set, otherwise the first candidate directory under which
the marker is an existing file. -/
def maybe_infer_xdg_home (varValue : Option String) (candidates : List String)
    (relativeMarker : String) (isFile : String → Bool) : Option String :=
  if varValue.isSome then none
  else
    candidates.findSome? fun base =>
      if isFile (pathJoin base relativeMarker) then some base else none

/-- Model of `candidate_xdg_data_dirs` (`paths.rs` 23-38); `macos` selects
the `cfg(target_os = "macos")` extra candidate. -/
def candidate_xdg_data_dirs (home : Option String) (macos : Bool) :
    List String :=
  match home with
  | none => []
  | some h =>
    [pathJoin (pathJoin h ".local") "share", pathJoin h ".config"] ++
    (if macos then [pathJoin h "Library/Application Support"] else [])

/-- Model of `candidate_xdg_config_dirs` (`paths.rs` 40-54). -/
def candidate_xdg_config_dirs (home : Option String) (macos : Bool) :
    List String :=
  match home with
  | none => []
  | some h =>
    [pathJoin h ".config"] ++
    (if macos then [pathJoin h "Library/Application Support"] else [])

/-- Environment the spawner consults when building the child's environment
overrides. -/
structure SpawnEnv where
  home : Option String
  macos : Bool
  xdgDataVar : Option String
  xdgConfigVar : Option String
  isFile : String → Bool

/-- The environment overrides `spawn_engine` (`engine/spawn.rs` 53-79) sets
on the child: `XDG_DATA_HOME` when inferred from the `opencode/auth.json`
marker, `XDG_CONFIG_HOME` when inferred from the `opencode/opencode.jsonc`
marker or, failing that, the `opencode/opencode.json` marker, plus the two
fixed tags. -/
def spawn_engine_env (env : SpawnEnv) : List (String × String) :=
  let dataHome := maybe_infer_xdg_home env.xdgDataVar
    (candidate_xdg_data_dirs env.home env.macos) "opencode/auth.json" env.isFile
  let configHome :=
    (maybe_infer_xdg_home env.xdgConfigVar
      (candidate_xdg_config_dirs env.home env.macos) "opencode/opencode.jsonc"
      env.isFile).orElse fun _ =>
      maybe_infer_xdg_home env.xdgConfigVar
        (candidate_xdg_config_dirs env.home env.macos) "opencode/opencode.json"
        env.isFile
  (dataHome.map fun v => ("XDG_DATA_HOME", v)).toList ++
  (configHome.map fun v => ("XDG_CONFIG_HOME", v)).toList ++
  [("OPENCODE_CLIENT", "openwork"), ("OPENWORK", "1")]

/-! ## The start orchestrator (`commands/engine.rs` 177-592, direct mode)

`engine_start` is embedded as a pure function of the outcomes of its
effectful steps, specialised to the default `Direct` runtime (the `Openwrk`
branch at lines 267-425 is a separate daemon flow not exercised by the
claims below; validation and every step up to the runtime branch are
shared).  The value of each world-changing call is a parameter, the calls a
run performs are returned as a trace, and a `none` result marks a Rust
panic (an underflowing `truncate_output`). -/

/-- The drain task's shared `OutputState` (`commands/engine.rs` 21-27),
as observed by one iteration of the warm-up poll loop. -/
structure OutputState where
  stdout : String := ""
  stderr : String := ""
  exited : Bool := false
  exit_code : Option Int := none
  deriving DecidableEq, Repr

/-- World-changing steps `engine_start` performs, in program order. -/
inductive StartAction
  | createDir
  | readConfig
  | writeConfig
  | allocPort
  | stopEngine
  | stopOpenwrk
  | spawnPrimary
  | startOpenworkServer
  | startOwpenbot
  deriving DecidableEq, Repr

/-- Result of `write_opencode_config` (`types.rs` `ExecResult`). -/
structure ExecResult where
  ok : Bool
  status : Int
  stdout : String
  stderr : String
  deriving DecidableEq, Repr

/-- Outcomes of the effectful steps of a direct-mode `engine_start` run. -/
structure StartEnv where
  createDirAll : Except String Unit
  configRead : Except String Bool
  configWrite : Except String ExecResult
  authVar : Option String
  freePort : Except String Nat
  uuid : String
  resourceDir : Option String
  currentBinDir : Option String
  resolveEnv : ResolveEnv
  spawnResult : Except String ChildProc
  warmupPolls : List OutputState
  resolveConnectUrl : Option String
  owpenbotHealthPort : Except String Nat
  openworkServerStart : Except String Unit
  owpenbotStartResult : Except String Unit

/-- Result of a run: the command's return value, the engine manager's state
after the run, and the trace of world-changing steps performed. -/
structure StartOutcome where
  result : Except String EngineInfo
  state : EngineState
  trace : List StartAction
  deriving Repr

/-- The executable-not-found error (`commands/engine.rs` 253-258): the fixed
install hint followed by the accumulated resolution notes. -/
def engine_not_found_message (notes : List String) : String :=
  "OpenCode CLI not found.\n\nInstall with:\n- brew install anomalyco/tap/opencode\n- curl -fsSL https://opencode.ai/install | bash\n\nNotes:\n" ++
  String.intercalate "\n" notes

/-- The early-exit error message (`commands/engine.rs` 503-541): exit status
plus the trimmed, truncated captured stdout/stderr; `none` when a
`truncate_output` call underflows. -/
def early_exit_message (out : OutputState) : Option String := do
  let stdoutTrim := rustTrim out.stdout
  let stderrTrim := rustTrim out.stderr
  let stdoutPart ←
    if stdoutTrim = "" then some none
    else Option.map some (truncate_output stdoutTrim 8000)
  let stderrPart ←
    if stderrTrim = "" then some none
    else Option.map some (truncate_output stderrTrim 8000)
  let parts := (stdoutPart.map fun s => "stdout:\n" ++ s).toList ++
               (stderrPart.map fun s => "stderr:\n" ++ s).toList
  let suffix :=
    if parts = [] then "" else "\n\n" ++ String.intercalate "\n\n" parts
  pure ("OpenCode exited immediately with status " ++
        toString (out.exit_code.getD (-1)) ++ "." ++ suffix)

/-- Store a formatted message into the engine state's `last_stderr` through
`truncate_output` with cap 8000, as the secondary-failure handlers do. -/
def setLastStderr (st : EngineState) (msg : String) : Option EngineState :=
  (truncate_output msg 8000).map fun t => { st with last_stderr := some t }

/-- Secondary-service leg of a direct-mode start (`commands/engine.rs`
558-591): each failing secondary stores its formatted error into the
primary's `last_stderr`, then the run returns the primary's snapshot. -/
def engineStartSecondaries (env : StartEnv) (st : EngineState)
    (trace : List StartAction) : Option StartOutcome := do
  let st ←
    match env.owpenbotHealthPort with
    | .ok _ => some st
    | .error e => setLastStderr st ("Owpenbot health port: " ++ e)
  let st ←
    match env.openworkServerStart with
    | .ok _ => some st
    | .error e => setLastStderr st ("OpenWork server: " ++ e)
  let st ←
    match env.owpenbotStartResult with
    | .ok _ => some st
    | .error e => setLastStderr st ("Owpenbot: " ++ e)
  let snap := EngineManager.snapshot_locked st
  pure ⟨.ok snap.1, snap.2,
        trace ++ [.startOpenworkServer, .startOwpenbot]⟩

/-- Spawn, warm-up gate and success leg of a direct-mode start
(`commands/engine.rs` 427-592): after a successful spawn the drain task's
`OutputState` is polled; the first poll observing `exited` fails the start
with the early-exit message and the child handle is never stored, otherwise
the connection fields and credentials are recorded and the secondaries are
started. -/
def engineStartSpawn (pd : String) (port : Nat)
    (username password : Option String) (env : StartEnv) (st : EngineState)
    (trace : List StartAction) : Option StartOutcome :=
  match env.spawnResult with
  | .error e => some ⟨.error e, st, trace ++ [.spawnPrimary]⟩
  | .ok child =>
    let trace := trace ++ [.spawnPrimary]
    let st := { st with
      last_stdout := none, last_stderr := none, child_exited := false }
    match env.warmupPolls.find? (fun out => out.exited) with
    | some out =>
      match early_exit_message out with
      | none => none
      | some msg => some ⟨.error msg, st, trace⟩
    | none =>
      let st := { st with
        child := some child
        project_dir := some pd
        hostname := some "127.0.0.1"
        port := some port
        base_url := some ("http://127.0.0.1:" ++ toString port)
        opencode_username := username
        opencode_password := password }
      engineStartSecondaries env st trace

/-- The `OPENWORK_OPENCODE_AUTH` toggle (`commands/engine.rs` 224-227):
auth is enabled unless the variable is set to something other than `"1"` or
a case-insensitive `"true"` — unset defaults to enabled. -/
def engineAuthEnabled (authVar : Option String) : Bool :=
  match authVar with
  | some v => v = "1" || eqIgnoreAsciiCase v "true"
  | none => true

/-- Port allocation, credential generation, stop of the prior state and
executable resolution (`commands/engine.rs` 212-265; the `use_sidecar`
recomputation at 260-265 only selects how the spawn call is issued and is
absorbed into `spawnResult`). -/
def engineStartAfterConfig (pd : String) (prefer_sidecar : Bool)
    (env : StartEnv) (st0 : EngineState) (trace : List StartAction) :
    Option StartOutcome :=
  match env.freePort with
  | .error e => some ⟨.error e, st0, trace ++ [.allocPort]⟩
  | .ok port =>
    let enable_auth := engineAuthEnabled env.authVar
    let username := if enable_auth then some "opencode" else none
    let password := if enable_auth then some env.uuid else none
    let st1 := { (EngineManager.stop_locked st0).1 with
      runtime := EngineRuntime.direct }
    let trace := trace ++ [.allocPort, .stopEngine, .stopOpenwrk]
    let resolved :=
      resolve_engine_path prefer_sidecar env.resourceDir env.currentBinDir
        env.resolveEnv
    match resolved.1 with
    | none => some ⟨.error (engine_not_found_message resolved.2.2), st1, trace⟩
    | some _program => engineStartSpawn pd port username password env st1 trace

/-- Model of direct-mode `engine_start` (`commands/engine.rs` 177-592):
validation, workspace preparation, then `engineStartAfterConfig`. -/
def engine_start_direct (project_dir : String) (prefer_sidecar : Bool)
    (env : StartEnv) (st0 : EngineState) : Option StartOutcome :=
  let pd := rustTrim project_dir
  if pd = "" then
    some ⟨.error "projectDir is required", st0, []⟩
  else
    match env.createDirAll with
    | .error e =>
      some ⟨.error ("Failed to create projectDir directory: " ++ e), st0,
            [.createDir]⟩
    | .ok _ =>
      match env.configRead with
      | .error e => some ⟨.error e, st0, [.createDir, .readConfig]⟩
      | .ok configExists =>
        if configExists then
          engineStartAfterConfig pd prefer_sidecar env st0
            [.createDir, .readConfig]
        else
          match env.configWrite with
          | .error e =>
            some ⟨.error e, st0, [.createDir, .readConfig, .writeConfig]⟩
          | .ok wr =>
            if wr.ok then
              engineStartAfterConfig pd prefer_sidecar env st0
                [.createDir, .readConfig, .writeConfig]
            else
              some ⟨.error wr.stderr, st0,
                    [.createDir, .readConfig, .writeConfig]⟩

/-! ## Helper lemmas -/

theorem findSome?_if_eq_find? {α : Type} (p : α → Bool) (l : List α) :
    (l.findSome? fun a => if p a then some a else none) = l.find? p := by
  induction l with
  | nil => rfl
  | cons a t ih =>
    by_cases h : p a <;> simp [List.findSome?_cons, List.find?_cons, h, ih]

theorem waitLoop_ok_mem (probes : List (Except String OpenwrkHealth))
    (acc : Option String) (h : OpenwrkHealth)
    (hw : waitLoop probes acc = .ok h) :
    h.ok = true ∧ Except.ok h ∈ probes := by
  induction probes generalizing acc with
  | nil => simp [waitLoop] at hw
  | cons p rest ih =>
    match p with
    | .error e =>
      have := ih (some e) hw
      exact ⟨this.1, List.mem_cons_of_mem _ this.2⟩
    | .ok hp =>
      by_cases hok : hp.ok
      · have : (Except.ok hp : Except String OpenwrkHealth) = Except.ok h := by
          simpa [waitLoop, hok] using hw
        obtain rfl : hp = h := by injection this
        exact ⟨hok, List.mem_cons_self _ _⟩
      · have hw' : waitLoop rest (some "Openwrk reported unhealthy") = .ok h := by
          simpa [waitLoop, hok] using hw
        have := ih _ hw'
        exact ⟨this.1, List.mem_cons_of_mem _ this.2⟩

theorem waitLoop_no_healthy (probes : List (Except String OpenwrkHealth))
    (hnone : ∀ x, Except.ok x ∈ probes → x.ok = false) (acc : Option String) :
    waitLoop probes acc =
      .error ((probes.getLast?.map probeMessage).getD
        (acc.getD "Timed out waiting for openwrk")) := by
  induction probes generalizing acc with
  | nil => simp [waitLoop]
  | cons p rest ih =>
    have hrest : ∀ x, Except.ok x ∈ rest → x.ok = false := fun x hx =>
      hnone x (List.mem_cons_of_mem _ hx)
    have step : waitLoop (p :: rest) acc =
        waitLoop rest (some (probeMessage p)) := by
      match p with
      | .error e => simp [waitLoop, probeMessage]
      | .ok hp =>
        have : hp.ok = false := hnone hp (List.mem_cons_self _ _)
        simp [waitLoop, probeMessage, this]
    rw [step, ih hrest]
    match rest with
    | [] => simp
    | q :: t =>
      have hs : (q :: t).getLast?.isSome := by simp [List.getLast?_isSome]
      obtain ⟨x, hx⟩ := Option.isSome_iff_exists.mp hs
      simp [List.getLast?_cons_cons, hx]

/-! ## Claim theorems -/

/-- C6: `wait_for_openwrk` succeeds only when some probe inside the window
returned a payload with `ok = true`; when no probe did, it fails with the
message derived from the most recent probe (its error text, or the
"unhealthy" message for an `ok = false` payload), and the bare timeout
message appears exactly when no probe completed at all. -/
theorem wait_for_openwrk_spec (probes : List (Except String OpenwrkHealth)) :
    (∀ h, wait_for_openwrk probes = .ok h →
       h.ok = true ∧ Except.ok h ∈ probes) ∧
    ((∀ x, Except.ok x ∈ probes → x.ok = false) →
       wait_for_openwrk probes =
         .error ((probes.getLast?.map probeMessage).getD
           "Timed out waiting for openwrk")) ∧
    (probes = [] →
       wait_for_openwrk probes = .error "Timed out waiting for openwrk") := by
  refine ⟨fun h hw => waitLoop_ok_mem probes none h hw, fun hnone => ?_,
    fun he => by simp [he, wait_for_openwrk, waitLoop]⟩
  simpa using waitLoop_no_healthy probes hnone none

/-- Witness for `wait_for_openwrk_spec`: a healthy third probe is returned
with its payload; an unhealthy-then-refused window surfaces the last
connection error; an empty window reports the bare timeout. -/
theorem wait_for_openwrk_spec_witness :
    (⟨true, some 7, some 8⟩ : OpenwrkHealth).ok = true ∧
    Except.ok (⟨true, some 7, some 8⟩ : OpenwrkHealth) ∈
      [Except.error "connection refused",
       Except.ok (⟨false, none, none⟩ : OpenwrkHealth),
       Except.ok (⟨true, some 7, some 8⟩ : OpenwrkHealth)] ∧
    wait_for_openwrk
      [Except.ok (⟨false, none, none⟩ : OpenwrkHealth),
       Except.error "connection refused"] =
      .error "connection refused" ∧
    wait_for_openwrk [] = .error "Timed out waiting for openwrk" := by
  have h1 := (wait_for_openwrk_spec
      [Except.error "connection refused",
       Except.ok (⟨false, none, none⟩ : OpenwrkHealth),
       Except.ok (⟨true, some 7, some 8⟩ : OpenwrkHealth)]).1
    ⟨true, some 7, some 8⟩ rfl
  have h2 := (wait_for_openwrk_spec
      [Except.ok (⟨false, none, none⟩ : OpenwrkHealth),
       Except.error "connection refused"]).2.1
    (by
      intro x hx
      simp at hx
      simp [hx])
  have h3 := (wait_for_openwrk_spec
      ([] : List (Except String OpenwrkHealth))).2.2 rfl
  exact ⟨h1.1, h1.2, by simpa using h2, h3⟩

theorem maybe_infer_some (varValue : Option String) (cands : List String)
    (marker : String) (fs : String → Bool) (v : String)
    (h : maybe_infer_xdg_home varValue cands marker fs = some v) :
    varValue = none ∧ v ∈ cands ∧ fs (pathJoin v marker) = true := by
  unfold maybe_infer_xdg_home at h
  by_cases hv : varValue.isSome
  · simp [hv] at h
  · have hnone : varValue = none := Option.not_isSome_iff_eq_none.mp hv
    rw [if_neg (by simp [hv]), findSome?_if_eq_find?] at h
    have hp := List.find?_some h
    have hm := List.mem_of_find?_eq_some h
    exact ⟨hnone, hm, hp⟩

/-- C9: `maybe_infer_xdg_home` returns `none` whenever the variable is
already set; when it is unset it returns the first candidate whose marker
probe succeeds (`none` when no probe succeeds); consequently the spawner
adds `XDG_DATA_HOME`/`XDG_CONFIG_HOME` to the child environment only when
the variable is unset and a candidate's marker probe succeeded. -/
theorem maybe_infer_xdg_home_spec (varValue : Option String)
    (cands : List String) (marker : String) (fs : String → Bool)
    (env : SpawnEnv) :
    (varValue.isSome = true →
       maybe_infer_xdg_home varValue cands marker fs = none) ∧
    (varValue = none →
       maybe_infer_xdg_home varValue cands marker fs =
         cands.find? fun b => fs (pathJoin b marker)) ∧
    (∀ v, ("XDG_DATA_HOME", v) ∈ spawn_engine_env env →
       env.xdgDataVar = none ∧
       v ∈ candidate_xdg_data_dirs env.home env.macos ∧
       env.isFile (pathJoin v "opencode/auth.json") = true) ∧
    (∀ v, ("XDG_CONFIG_HOME", v) ∈ spawn_engine_env env →
       env.xdgConfigVar = none ∧
       v ∈ candidate_xdg_config_dirs env.home env.macos ∧
       (env.isFile (pathJoin v "opencode/opencode.jsonc") = true ∨
        env.isFile (pathJoin v "opencode/opencode.json") = true)) := by
  refine ⟨fun hv => by simp [maybe_infer_xdg_home, hv],
    fun hv => by simp [maybe_infer_xdg_home, hv, findSome?_if_eq_find?],
    ?_, ?_⟩
  · intro v hmem
    unfold spawn_engine_env at hmem
    cases hdata : maybe_infer_xdg_home env.xdgDataVar
        (candidate_xdg_data_dirs env.home env.macos) "opencode/auth.json"
        env.isFile with
    | none =>
      cases hcfg : (maybe_infer_xdg_home env.xdgConfigVar
          (candidate_xdg_config_dirs env.home env.macos)
          "opencode/opencode.jsonc" env.isFile).orElse fun _ =>
          maybe_infer_xdg_home env.xdgConfigVar
            (candidate_xdg_config_dirs env.home env.macos)
            "opencode/opencode.json" env.isFile with
      | none => simp [hdata, hcfg] at hmem
      | some w => simp [hdata, hcfg] at hmem
    | some w =>
      have hw : v = w := by
        cases hcfg : (maybe_infer_xdg_home env.xdgConfigVar
            (candidate_xdg_config_dirs env.home env.macos)
            "opencode/opencode.jsonc" env.isFile).orElse fun _ =>
            maybe_infer_xdg_home env.xdgConfigVar
              (candidate_xdg_config_dirs env.home env.macos)
              "opencode/opencode.json" env.isFile with
        | none => simpa [hdata, hcfg] using hmem
        | some u => simpa [hdata, hcfg] using hmem
      subst hw
      exact maybe_infer_some _ _ _ _ _ hdata
  · intro v hmem
    unfold spawn_engine_env at hmem
    cases hcfg : (maybe_infer_xdg_home env.xdgConfigVar
        (candidate_xdg_config_dirs env.home env.macos)
        "opencode/opencode.jsonc" env.isFile).orElse fun _ =>
        maybe_infer_xdg_home env.xdgConfigVar
          (candidate_xdg_config_dirs env.home env.macos)
          "opencode/opencode.json" env.isFile with
    | none =>
      cases hdata : maybe_infer_xdg_home env.xdgDataVar
          (candidate_xdg_data_dirs env.home env.macos) "opencode/auth.json"
          env.isFile with
      | none => simp [hdata, hcfg] at hmem
      | some w => simp [hdata, hcfg] at hmem
    | some w =>
      have hw : v = w := by
        cases hdata : maybe_infer_xdg_home env.xdgDataVar
            (candidate_xdg_data_dirs env.home env.macos) "opencode/auth.json"
            env.isFile with
        | none => simpa [hdata, hcfg] using hmem
        | some u => simpa [hdata, hcfg] using hmem
      subst hw
      cases hjc : maybe_infer_xdg_home env.xdgConfigVar
          (candidate_xdg_config_dirs env.home env.macos)
          "opencode/opencode.jsonc" env.isFile with
      | some w1 =>
        have hww : w1 = v := by simpa [hjc, Option.orElse] using hcfg
        subst hww
        obtain ⟨h1, h2, h3⟩ := maybe_infer_some _ _ _ _ _ hjc
        exact ⟨h1, h2, Or.inl h3⟩
      | none =>
        have hj : maybe_infer_xdg_home env.xdgConfigVar
            (candidate_xdg_config_dirs env.home env.macos)
            "opencode/opencode.json" env.isFile = some v := by
          simpa [hjc, Option.orElse] using hcfg
        obtain ⟨h1, h2, h3⟩ := maybe_infer_some _ _ _ _ _ hj
        exact ⟨h1, h2, Or.inr h3⟩

/-- Witness for `maybe_infer_xdg_home_spec`: a set variable suppresses the
inference; an unset variable picks the first candidate whose marker file
exists; the overrides the spawner attaches at a concrete environment. -/
theorem maybe_infer_xdg_home_spec_witness :
    maybe_infer_xdg_home (some "/tmp/data") ["/h/.local/share"] "m"
      (fun _ => true) = none ∧
    maybe_infer_xdg_home none ["/h/.local/share", "/h/.config"] "m"
      (fun _ => true) =
      List.find? (fun b => (fun _ => true) (pathJoin b "m"))
        ["/h/.local/share", "/h/.config"] ∧
    ((none : Option String) = none ∧
      "/h/.local/share" ∈ candidate_xdg_data_dirs (some "/h") false ∧
      (fun _ : String => true) (pathJoin "/h/.local/share"
        "opencode/auth.json") = true) := by
  refine ⟨(maybe_infer_xdg_home_spec (some "/tmp/data") ["/h/.local/share"]
      "m" (fun _ => true)
      ⟨some "/h", false, none, none, fun _ => true⟩).1 rfl,
    (maybe_infer_xdg_home_spec none ["/h/.local/share", "/h/.config"] "m"
      (fun _ => true)
      ⟨some "/h", false, none, none, fun _ => true⟩).2.1 rfl,
    (maybe_infer_xdg_home_spec none ["/h/.local/share", "/h/.config"] "m"
      (fun _ => true)
      ⟨some "/h", false, none, none, fun _ => true⟩).2.2.1 "/h/.local/share"
      (by decide)⟩

theorem utf8Len_replicate (n : Nat) (c : Char) :
    utf8Len (List.replicate n c) = n * c.utf8Size := by
  induction n with
  | zero => simp [utf8Len]
  | succ k ih =>
    rw [List.replicate_succ]
    simp only [utf8Len, List.map_cons, List.sum_cons] at *
    rw [ih]
    ring

/-- C2 (code bug): `truncate_output` guards on the byte length but skips by
character count, so a buffer of 5000 two-byte characters (10000 bytes, cap
8000) drives the `usize` subtraction `chars().count() - max_chars` into
underflow (a panic under overflow checks, modelled as `none`); and on 8001
two-byte characters the retained tail is 8000 characters but 16000 bytes,
twice the cap, so the stored buffer is not byte-bounded either. -/
theorem truncate_output_multibyte_bug :
    utf8Len (List.replicate 5000 'é') = 10000 ∧
    (List.replicate 5000 'é').length = 5000 ∧
    truncate_output (String.mk (List.replicate 5000 'é')) 8000 = none ∧
    truncate_output (String.mk (List.replicate 8001 'é')) 8000 =
      some (String.mk (List.replicate 8000 'é')) ∧
    utf8Len (List.replicate 8000 'é') = 16000 := by
  have hsize : ('é').utf8Size = 2 := rfl
  have h5 : utf8Len (List.replicate 5000 'é') = 10000 := by
    rw [utf8Len_replicate, hsize]
  have h80 : utf8Len (List.replicate 8000 'é') = 16000 := by
    rw [utf8Len_replicate, hsize]
  have h81 : utf8Len (List.replicate 8001 'é') = 16002 := by
    rw [utf8Len_replicate, hsize]
  refine ⟨h5, by rw [List.length_replicate], ?_, ?_, h80⟩
  · unfold truncate_output
    rw [show (String.mk (List.replicate 5000 'é')).data
        = List.replicate 5000 'é' from rfl, h5, List.length_replicate]
    rw [if_neg (by norm_num), if_pos (by norm_num)]
  · unfold truncate_output
    rw [show (String.mk (List.replicate 8001 'é')).data
        = List.replicate 8001 'é' from rfl, h81, List.length_replicate]
    rw [if_neg (by norm_num), if_neg (by norm_num)]
    rw [show (8001 - 8000 : Nat) = 1 from rfl,
      show (8001 : Nat) = 8000 + 1 from rfl, List.replicate_succ,
      List.drop_succ_cons, List.drop_zero]

theorem sidecarLoop_spec (fs : String → Bool) (cands : List String) :
    ∀ notes, sidecarLoop fs cands notes =
      (cands.find? fs,
       notes ++ (cands.takeWhile fun x => !fs x).map
         (fun x => "Sidecar missing: " ++ x) ++
       ((cands.find? fs).map
         fun c => "Using bundled sidecar: " ++ c).toList) := by
  induction cands with
  | nil => intro notes; simp [sidecarLoop]
  | cons c rest ih =>
    intro notes
    by_cases h : fs c
    · simp [sidecarLoop, List.find?_cons, List.takeWhile_cons, h]
    · simp [sidecarLoop, List.find?_cons, List.takeWhile_cons, h, ih]

/-- C8: with `prefer_sidecar` the bundled candidates are tried in the fixed
order current-binary dir, resource-dir `sidecars`, resource-dir,
`src-tauri/sidecars`; the first existing file wins; every tried candidate
(rejected or used) leaves a diagnostic note; without a sidecar (or with
`prefer_sidecar = false`) resolution falls back to the
search-path/override resolver; and a total resolution failure makes
`engine_start` fail with the accumulated notes embedded in the error. -/
theorem resolve_engine_path_spec (rd cbd : String)
    (ord ocbd : Option String) (fs : String → Bool) (renv : ResolveEnv)
    (project_dir : String) (prefer : Bool) (env : StartEnv)
    (st0 : EngineState) (port : Nat)
    (h1 : rustTrim project_dir ≠ "")
    (h2 : env.createDirAll = .ok ())
    (h3 : env.configRead = .ok true)
    (h4 : env.freePort = .ok port)
    (hres : (resolve_engine_path prefer env.resourceDir env.currentBinDir
      env.resolveEnv).1 = none) :
    sidecarCandidates (some rd) (some cbd) =
      [pathJoin cbd opencodeExecutable,
       pathJoin (pathJoin rd "sidecars") opencodeExecutable,
       pathJoin rd opencodeExecutable,
       pathJoin "src-tauri/sidecars" opencodeExecutable] ∧
    (resolve_sidecar_candidate true ord ocbd fs).1 =
      (sidecarCandidates ord ocbd).find? fs ∧
    (resolve_sidecar_candidate true ord ocbd fs).2 =
      ((sidecarCandidates ord ocbd).takeWhile fun x => !fs x).map
        (fun x => "Sidecar missing: " ++ x) ++
      (((sidecarCandidates ord ocbd).find? fs).map
        fun c => "Using bundled sidecar: " ++ c).toList ∧
    resolve_sidecar_candidate false ord ocbd fs = (none, []) ∧
    resolve_engine_path false ord ocbd renv =
      resolve_opencode_executable renv ∧
    ((resolve_sidecar_candidate true ord ocbd renv.isFile).1 = none →
      resolve_engine_path true ord ocbd renv =
        ((resolve_opencode_executable renv).1,
         (resolve_opencode_executable renv).2.1,
         (resolve_sidecar_candidate true ord ocbd renv.isFile).2 ++
           (resolve_opencode_executable renv).2.2)) ∧
    (∃ st', engine_start_direct project_dir prefer env st0 =
      some ⟨.error (engine_not_found_message
          (resolve_engine_path prefer env.resourceDir env.currentBinDir
            env.resolveEnv).2.2),
        st', [.createDir, .readConfig, .allocPort, .stopEngine,
          .stopOpenwrk]⟩) ∧
    (∀ notes, ∃ a,
      engine_not_found_message notes = a ++ String.intercalate "\n" notes) := by
  refine ⟨rfl, ?_, ?_, ?_, ?_, ?_, ?_, fun notes => ⟨_, rfl⟩⟩
  · rw [show resolve_sidecar_candidate true ord ocbd fs =
        sidecarLoop fs (sidecarCandidates ord ocbd) [] from rfl,
      sidecarLoop_spec]
  · rw [show resolve_sidecar_candidate true ord ocbd fs =
        sidecarLoop fs (sidecarCandidates ord ocbd) [] from rfl,
      sidecarLoop_spec]
    simp
  · rfl
  · rcases hf : resolve_opencode_executable renv with ⟨a, b, c⟩
    simp [resolve_engine_path, resolve_sidecar_candidate, hf]
  · intro hn
    rcases hsc : resolve_sidecar_candidate true ord ocbd renv.isFile
      with ⟨o, notes⟩
    have ho : o = none := by
      have := congrArg Prod.fst hsc
      simpa [this] using hn
    subst ho
    simp [resolve_engine_path, hsc]
  · refine ⟨{ (EngineManager.stop_locked st0).1 with
      runtime := EngineRuntime.direct }, ?_⟩
    unfold engine_start_direct
    rw [if_neg h1, h2, h3]
    simp only []
    unfold engineStartAfterConfig
    rw [h4]
    simp [hres]

theorem early_exit_message_contains (out : OutputState) (msg : String)
    (h : early_exit_message out = some msg) :
    (∀ t, rustTrim out.stdout ≠ "" →
       truncate_output (rustTrim out.stdout) 8000 = some t →
       ∃ a b, msg = a ++ t ++ b) ∧
    (∀ u, rustTrim out.stderr ≠ "" →
       truncate_output (rustTrim out.stderr) 8000 = some u →
       ∃ a b, msg = a ++ u ++ b) := by
  have hemp : ("" : String).data = [] := rfl
  by_cases hso : rustTrim out.stdout = "" <;>
    by_cases hse : rustTrim out.stderr = ""
  · exact ⟨fun t hne _ => absurd hso hne, fun u hne _ => absurd hse hne⟩
  · cases htr : truncate_output (rustTrim out.stderr) 8000 with
    | none => unfold early_exit_message at h; simp [hso, hse, htr] at h
    | some u0 =>
      unfold early_exit_message at h
      simp [hso, hse, htr] at h
      rw [show "\n\n".intercalate ["stderr:\n" ++ u0] = "stderr:\n" ++ u0
        from rfl] at h
      subst h
      refine ⟨fun t hne _ => absurd hso hne, fun u hne htu => ?_⟩
      obtain rfl : u0 = u := Option.some.inj htu
      refine ⟨"OpenCode exited immediately with status " ++
        toString (out.exit_code.getD (-1)) ++ "." ++ "\n\n" ++ "stderr:\n",
        "", ?_⟩
      apply String.ext
      simp [String.data_append, List.append_assoc, hemp]
  · cases htr : truncate_output (rustTrim out.stdout) 8000 with
    | none => unfold early_exit_message at h; simp [hso, hse, htr] at h
    | some t0 =>
      unfold early_exit_message at h
      simp [hso, hse, htr] at h
      rw [show "\n\n".intercalate ["stdout:\n" ++ t0] = "stdout:\n" ++ t0
        from rfl] at h
      subst h
      refine ⟨fun t hne htt => ?_, fun u hne _ => absurd hse hne⟩
      obtain rfl : t0 = t := Option.some.inj htt
      refine ⟨"OpenCode exited immediately with status " ++
        toString (out.exit_code.getD (-1)) ++ "." ++ "\n\n" ++ "stdout:\n",
        "", ?_⟩
      apply String.ext
      simp [String.data_append, List.append_assoc, hemp]
  · cases htr1 : truncate_output (rustTrim out.stdout) 8000 with
    | none => unfold early_exit_message at h; simp [hso, hse, htr1] at h
    | some t0 =>
      cases htr2 : truncate_output (rustTrim out.stderr) 8000 with
      | none =>
        unfold early_exit_message at h; simp [hso, hse, htr1, htr2] at h
      | some u0 =>
        unfold early_exit_message at h
        simp [hso, hse, htr1, htr2] at h
        rw [show "\n\n".intercalate
            ["stdout:\n" ++ t0, "stderr:\n" ++ u0] =
            ("stdout:\n" ++ t0) ++ "\n\n" ++ ("stderr:\n" ++ u0)
          from rfl] at h
        subst h
        constructor
        · intro t hne htt
          obtain rfl : t0 = t := Option.some.inj htt
          refine ⟨"OpenCode exited immediately with status " ++
            toString (out.exit_code.getD (-1)) ++ "." ++ "\n\n" ++
            "stdout:\n", "\n\n" ++ "stderr:\n" ++ u0, ?_⟩
          apply String.ext
          simp [String.data_append, List.append_assoc, hemp]
        · intro u hne htu
          obtain rfl : u0 = u := Option.some.inj htu
          refine ⟨"OpenCode exited immediately with status " ++
            toString (out.exit_code.getD (-1)) ++ "." ++ "\n\n" ++
            "stdout:\n" ++ t0 ++ "\n\n" ++ "stderr:\n", "", ?_⟩
          apply String.ext
          simp [String.data_append, List.append_assoc, hemp]

/-- C1: if a direct-mode start's spawned engine exits during the warm-up
window (the drain task's `OutputState` observed with `exited` set by one of
the polls), `engine_start` fails with the early-exit message — which embeds
the captured (trimmed, truncated) stdout and stderr — the manager's child
handle is never set, and the subsequent snapshot reports not-running. -/
theorem engine_start_early_exit (project_dir : String) (prefer : Bool)
    (env : StartEnv) (st0 : EngineState) (port : Nat) (prog : String)
    (child : ChildProc) (out : OutputState) (msg : String)
    (h1 : rustTrim project_dir ≠ "")
    (h2 : env.createDirAll = .ok ())
    (h3 : env.configRead = .ok true)
    (h4 : env.freePort = .ok port)
    (h5 : (resolve_engine_path prefer env.resourceDir env.currentBinDir
      env.resolveEnv).1 = some prog)
    (h6 : env.spawnResult = .ok child)
    (h7 : env.warmupPolls.find? (fun o => o.exited) = some out)
    (h8 : early_exit_message out = some msg) :
    ∃ st', engine_start_direct project_dir prefer env st0 =
        some ⟨.error msg, st',
          [.createDir, .readConfig, .allocPort, .stopEngine, .stopOpenwrk,
           .spawnPrimary]⟩ ∧
      st'.child = none ∧
      (EngineManager.snapshot_locked st').1.running = false ∧
      (∀ t, rustTrim out.stdout ≠ "" →
         truncate_output (rustTrim out.stdout) 8000 = some t →
         ∃ a b, msg = a ++ t ++ b) ∧
      (∀ u, rustTrim out.stderr ≠ "" →
         truncate_output (rustTrim out.stderr) 8000 = some u →
         ∃ a b, msg = a ++ u ++ b) := by
  refine ⟨{ (EngineManager.stop_locked st0).1 with
      runtime := EngineRuntime.direct, last_stdout := none,
      last_stderr := none, child_exited := false }, ?_, rfl, rfl,
    (early_exit_message_contains out msg h8).1,
    (early_exit_message_contains out msg h8).2⟩
  unfold engine_start_direct
  rw [if_neg h1, h2, h3]
  simp only []
  unfold engineStartAfterConfig
  rw [h4]
  simp only [h5]
  unfold engineStartSpawn
  rw [h6]
  simp [h7, h8, EngineManager.stop_locked]

/-- C3: when a direct-mode start's spawn and warm-up succeed but a
secondary service (openwork server or owpenbot) fails to start,
`engine_start` still returns `Ok`; the returned status reports running with
a non-empty `base_url`, and the formatted secondary error is stored in the
engine manager's `last_stderr`. -/
theorem engine_start_secondary_failure (project_dir : String)
    (prefer : Bool) (env : StartEnv) (st0 : EngineState) (port hp : Nat)
    (prog : String) (child : ChildProc)
    (h1 : rustTrim project_dir ≠ "")
    (h2 : env.createDirAll = .ok ())
    (h3 : env.configRead = .ok true)
    (h4 : env.freePort = .ok port)
    (h5 : (resolve_engine_path prefer env.resourceDir env.currentBinDir
      env.resolveEnv).1 = some prog)
    (h6 : env.spawnResult = .ok child)
    (h7 : env.warmupPolls.find? (fun o => o.exited) = none)
    (h8 : child.tryWait = .stillRunning)
    (h9 : env.owpenbotHealthPort = .ok hp) :
    (∀ e m, env.openworkServerStart = .error e →
       env.owpenbotStartResult = .ok () →
       truncate_output ("OpenWork server: " ++ e) 8000 = some m →
       ∃ info st', engine_start_direct project_dir prefer env st0 =
           some ⟨.ok info, st',
             [.createDir, .readConfig, .allocPort, .stopEngine,
              .stopOpenwrk, .spawnPrimary, .startOpenworkServer,
              .startOwpenbot]⟩ ∧
         info.running = true ∧
         info.base_url = some ("http://127.0.0.1:" ++ toString port) ∧
         ("http://127.0.0.1:" ++ toString port) ≠ "" ∧
         st'.last_stderr = some m ∧ info.last_stderr = some m) ∧
    (∀ e m, env.openworkServerStart = .ok () →
       env.owpenbotStartResult = .error e →
       truncate_output ("Owpenbot: " ++ e) 8000 = some m →
       ∃ info st', engine_start_direct project_dir prefer env st0 =
           some ⟨.ok info, st',
             [.createDir, .readConfig, .allocPort, .stopEngine,
              .stopOpenwrk, .spawnPrimary, .startOpenworkServer,
              .startOwpenbot]⟩ ∧
         info.running = true ∧
         info.base_url = some ("http://127.0.0.1:" ++ toString port) ∧
         ("http://127.0.0.1:" ++ toString port) ≠ "" ∧
         st'.last_stderr = some m ∧ info.last_stderr = some m) := by
  have hne : ("http://127.0.0.1:" ++ toString port) ≠ "" := by
    intro heq
    have hd := congrArg String.data heq
    rw [String.data_append] at hd
    simp [show ("http://127.0.0.1:" : String).data =
      'h' :: ("ttp://127.0.0.1:" : String).data from rfl] at hd
  constructor
  · intro e m he hb hm
    refine ⟨⟨true, some ("http://127.0.0.1:" ++ toString port),
        some (rustTrim project_dir), some "127.0.0.1", some port,
        some child.pid, none, some m⟩,
      { child := some child, project_dir := some (rustTrim project_dir),
        hostname := some "127.0.0.1", port := some port,
        base_url := some ("http://127.0.0.1:" ++ toString port),
        last_stdout := none, last_stderr := some m,
        runtime := EngineRuntime.direct, child_exited := false,
        opencode_username :=
          if engineAuthEnabled env.authVar then some "opencode" else none,
        opencode_password :=
          if engineAuthEnabled env.authVar then some env.uuid else none },
      ?_, rfl, rfl, hne, rfl, rfl⟩
    unfold engine_start_direct
    rw [if_neg h1, h2, h3]
    simp only []
    unfold engineStartAfterConfig
    rw [h4]
    simp only [h5]
    unfold engineStartSpawn
    rw [h6]
    simp only [h7]
    unfold engineStartSecondaries
    rw [h9, he, hb]
    simp [setLastStderr, hm, EngineManager.snapshot_locked, h8,
      EngineManager.stop_locked]
  · intro e m he hb hm
    refine ⟨⟨true, some ("http://127.0.0.1:" ++ toString port),
        some (rustTrim project_dir), some "127.0.0.1", some port,
        some child.pid, none, some m⟩,
      { child := some child, project_dir := some (rustTrim project_dir),
        hostname := some "127.0.0.1", port := some port,
        base_url := some ("http://127.0.0.1:" ++ toString port),
        last_stdout := none, last_stderr := some m,
        runtime := EngineRuntime.direct, child_exited := false,
        opencode_username :=
          if engineAuthEnabled env.authVar then some "opencode" else none,
        opencode_password :=
          if engineAuthEnabled env.authVar then some env.uuid else none },
      ?_, rfl, rfl, hne, rfl, rfl⟩
    unfold engine_start_direct
    rw [if_neg h1, h2, h3]
    simp only []
    unfold engineStartAfterConfig
    rw [h4]
    simp only [h5]
    unfold engineStartSpawn
    rw [h6]
    simp only [h7]
    unfold engineStartSecondaries
    rw [h9, he, hb]
    simp [setLastStderr, hm, EngineManager.snapshot_locked, h8,
      EngineManager.stop_locked]

/-- C10: a `projectDir` argument that trims to the empty string makes
`engine_start` return `Err("projectDir is required")` with an empty effect
trace (no manager stopped, no port allocated, no process spawned) and the
engine manager's state unchanged. -/
theorem engine_start_empty_project_dir (project_dir : String)
    (prefer_sidecar : Bool) (env : StartEnv) (st0 : EngineState)
    (h : rustTrim project_dir = "") :
    engine_start_direct project_dir prefer_sidecar env st0 =
      some ⟨.error "projectDir is required", st0, []⟩ := by
  simp [engine_start_direct, h]

/-- Witness for `engine_start_empty_project_dir` at a whitespace-only
argument and a concrete running state. -/
theorem engine_start_empty_project_dir_witness :
    engine_start_direct "   "  true
      { createDirAll := .ok (), configRead := .ok true,
        configWrite := .error "unused", authVar := none, freePort := .ok 4321,
        uuid := "u", resourceDir := none, currentBinDir := none,
        resolveEnv := ⟨none, [], none, fun _ => false⟩,
        spawnResult := .error "unused", warmupPolls := [],
        resolveConnectUrl := none, owpenbotHealthPort := .ok 1,
        openworkServerStart := .ok (), owpenbotStartResult := .ok () }
      { child := some ⟨11, .stillRunning⟩, base_url := some "http://x" } =
      some ⟨.error "projectDir is required",
            { child := some ⟨11, .stillRunning⟩, base_url := some "http://x" },
            []⟩ :=
  engine_start_empty_project_dir "   " true _ _ (by decide)

/-- C4: `stop` on a manager whose state has no child handle performs no
process operation, still clears the connection fields so that the next
snapshot reports not-running with empty connection info, and a second stop
leaves the state identical to the first stop's result. -/
theorem engine_stop_idempotent (st : EngineState) (h : st.child = none) :
    (EngineManager.stop_locked st).2 = [] ∧
    (EngineManager.snapshot_locked (EngineManager.stop_locked st).1).1.running
      = false ∧
    (EngineManager.snapshot_locked (EngineManager.stop_locked st).1).1.pid
      = none ∧
    (EngineManager.stop_locked st).1.base_url = none ∧
    (EngineManager.stop_locked st).1.hostname = none ∧
    (EngineManager.stop_locked st).1.port = none ∧
    (EngineManager.stop_locked (EngineManager.stop_locked st).1).1 =
      (EngineManager.stop_locked st).1 := by
  simp [EngineManager.stop_locked, EngineManager.snapshot_locked, h]

/-- Witness for `engine_stop_idempotent` at a concrete state carrying stale
connection info but no child. -/
theorem engine_stop_idempotent_witness :
    (EngineManager.stop_locked
        { child := none, base_url := some "http://127.0.0.1:99",
          hostname := some "127.0.0.1", port := some 99 }).2 = [] ∧
    (EngineManager.snapshot_locked (EngineManager.stop_locked
        { child := none, base_url := some "http://127.0.0.1:99",
          hostname := some "127.0.0.1", port := some 99 }).1).1.running
      = false ∧
    (EngineManager.snapshot_locked (EngineManager.stop_locked
        { child := none, base_url := some "http://127.0.0.1:99",
          hostname := some "127.0.0.1", port := some 99 }).1).1.pid = none ∧
    (EngineManager.stop_locked
        { child := none, base_url := some "http://127.0.0.1:99",
          hostname := some "127.0.0.1", port := some 99 }).1.base_url
      = none ∧
    (EngineManager.stop_locked
        { child := none, base_url := some "http://127.0.0.1:99",
          hostname := some "127.0.0.1", port := some 99 }).1.hostname
      = none ∧
    (EngineManager.stop_locked
        { child := none, base_url := some "http://127.0.0.1:99",
          hostname := some "127.0.0.1", port := some 99 }).1.port = none ∧
    (EngineManager.stop_locked (EngineManager.stop_locked
        { child := none, base_url := some "http://127.0.0.1:99",
          hostname := some "127.0.0.1", port := some 99 }).1).1 =
      (EngineManager.stop_locked
        { child := none, base_url := some "http://127.0.0.1:99",
          hostname := some "127.0.0.1", port := some 99 }).1 :=
  engine_stop_idempotent _ rfl

/-- C7 counterexample: the claim says every `WorkerState` field other than
the buffers being cleared is reset to `None`/empty by `stop`, including the
`child_exited` flag; but `OwpenbotManager::stop_locked` sets `child_exited`
to `true`, not to its empty value `false`. -/
theorem owpenbot_stop_exited_flag_not_cleared :
    ¬ ((OwpenbotManager.stop_locked
        { child := some ⟨7⟩, child_exited := false,
          workspace_path := some "w", opencode_url := some "u",
          qr_data := some "q", whatsapp_linked := true,
          telegram_configured := true, last_stdout := some "o",
          last_stderr := some "e" }).1.child_exited = false) := by
  decide

/-- C7 amended: after `stop`, in the same lock acquisition, both managers
reset the child handle, connection fields and buffers to `None`/empty —
except that the owpenbot `child_exited` flag is set to `true` rather than
cleared (and the engine state's extra flags are left untouched). -/
theorem stop_resets_fields (es : EngineState) (obs : OwpenbotState) :
    (EngineManager.stop_locked es).1.child = none ∧
    (EngineManager.stop_locked es).1.base_url = none ∧
    (EngineManager.stop_locked es).1.project_dir = none ∧
    (EngineManager.stop_locked es).1.hostname = none ∧
    (EngineManager.stop_locked es).1.port = none ∧
    (EngineManager.stop_locked es).1.last_stdout = none ∧
    (EngineManager.stop_locked es).1.last_stderr = none ∧
    (OwpenbotManager.stop_locked obs).1.child = none ∧
    (OwpenbotManager.stop_locked obs).1.workspace_path = none ∧
    (OwpenbotManager.stop_locked obs).1.opencode_url = none ∧
    (OwpenbotManager.stop_locked obs).1.qr_data = none ∧
    (OwpenbotManager.stop_locked obs).1.whatsapp_linked = false ∧
    (OwpenbotManager.stop_locked obs).1.telegram_configured = false ∧
    (OwpenbotManager.stop_locked obs).1.last_stdout = none ∧
    (OwpenbotManager.stop_locked obs).1.last_stderr = none ∧
    (OwpenbotManager.stop_locked obs).1.child_exited = true := by
  simp [EngineManager.stop_locked, OwpenbotManager.stop_locked]

/-- C5: a child whose exit probe reports termination is reaped by the very
next `snapshot` call (handle cleared, not-running, no pid) for both the
engine manager (`try_wait`) and the owpenbot manager (`child_exited` flag);
and in every state, `snapshot` returns the stored connection info and
stdout/stderr tails and leaves them unchanged. -/
theorem snapshot_reaps_exited_child (st : EngineState) (c : ChildProc)
    (ob : OwpenbotState) (b : CommandChild)
    (hc : st.child = some c) (hw : c.tryWait = .exited)
    (hb : ob.child = some b) (he : ob.child_exited = true) :
    (EngineManager.snapshot_locked st).1.running = false ∧
    (EngineManager.snapshot_locked st).1.pid = none ∧
    (EngineManager.snapshot_locked st).2.child = none ∧
    (OwpenbotManager.snapshot_locked ob).1.running = false ∧
    (OwpenbotManager.snapshot_locked ob).1.pid = none ∧
    (OwpenbotManager.snapshot_locked ob).2.child = none ∧
    (∀ s : EngineState,
      (EngineManager.snapshot_locked s).1.base_url = s.base_url ∧
      (EngineManager.snapshot_locked s).1.hostname = s.hostname ∧
      (EngineManager.snapshot_locked s).1.port = s.port ∧
      (EngineManager.snapshot_locked s).1.last_stdout = s.last_stdout ∧
      (EngineManager.snapshot_locked s).1.last_stderr = s.last_stderr ∧
      (EngineManager.snapshot_locked s).2.base_url = s.base_url ∧
      (EngineManager.snapshot_locked s).2.hostname = s.hostname ∧
      (EngineManager.snapshot_locked s).2.port = s.port ∧
      (EngineManager.snapshot_locked s).2.last_stdout = s.last_stdout ∧
      (EngineManager.snapshot_locked s).2.last_stderr = s.last_stderr) ∧
    (∀ t : OwpenbotState,
      (OwpenbotManager.snapshot_locked t).1.workspace_path
        = t.workspace_path ∧
      (OwpenbotManager.snapshot_locked t).1.opencode_url = t.opencode_url ∧
      (OwpenbotManager.snapshot_locked t).1.last_stdout = t.last_stdout ∧
      (OwpenbotManager.snapshot_locked t).1.last_stderr = t.last_stderr ∧
      (OwpenbotManager.snapshot_locked t).2.workspace_path
        = t.workspace_path ∧
      (OwpenbotManager.snapshot_locked t).2.opencode_url = t.opencode_url ∧
      (OwpenbotManager.snapshot_locked t).2.last_stdout = t.last_stdout ∧
      (OwpenbotManager.snapshot_locked t).2.last_stderr = t.last_stderr) := by
  refine ⟨?_, ?_, ?_, ?_, ?_, ?_, ?_, ?_⟩
  · simp [EngineManager.snapshot_locked, hc, hw]
  · simp [EngineManager.snapshot_locked, hc, hw]
  · simp [EngineManager.snapshot_locked, hc, hw]
  · simp [OwpenbotManager.snapshot_locked, hb, he]
  · simp [OwpenbotManager.snapshot_locked, hb, he]
  · simp [OwpenbotManager.snapshot_locked, hb, he]
  · intro s
    match h : s.child with
    | none => simp [EngineManager.snapshot_locked, h]
    | some c₀ =>
      match h' : c₀.tryWait with
      | .exited => simp [EngineManager.snapshot_locked, h, h']
      | .stillRunning => simp [EngineManager.snapshot_locked, h, h']
      | .probeError => simp [EngineManager.snapshot_locked, h, h']
  · intro t
    match h : t.child with
    | none => simp [OwpenbotManager.snapshot_locked, h]
    | some b₀ =>
      match h' : t.child_exited with
      | true => simp [OwpenbotManager.snapshot_locked, h, h']
      | false => simp [OwpenbotManager.snapshot_locked, h, h']

/-- Witness for `snapshot_reaps_exited_child` at concrete exited children. -/
theorem snapshot_reaps_exited_child_witness :
    (EngineManager.snapshot_locked
      { child := some ⟨21, .exited⟩, base_url := some "http://b",
        last_stderr := some "boom" }).1.running = false ∧
    (EngineManager.snapshot_locked
      { child := some ⟨21, .exited⟩, base_url := some "http://b",
        last_stderr := some "boom" }).1.pid = none ∧
    (EngineManager.snapshot_locked
      { child := some ⟨21, .exited⟩, base_url := some "http://b",
        last_stderr := some "boom" }).2.child = none ∧
    (OwpenbotManager.snapshot_locked
      { child := some ⟨22⟩, child_exited := true,
        opencode_url := some "http://c" }).1.running = false ∧
    (OwpenbotManager.snapshot_locked
      { child := some ⟨22⟩, child_exited := true,
        opencode_url := some "http://c" }).1.pid = none ∧
    (OwpenbotManager.snapshot_locked
      { child := some ⟨22⟩, child_exited := true,
        opencode_url := some "http://c" }).2.child = none := by
  have h := snapshot_reaps_exited_child
    { child := some ⟨21, .exited⟩, base_url := some "http://b",
      last_stderr := some "boom" } ⟨21, .exited⟩
    { child := some ⟨22⟩, child_exited := true,
      opencode_url := some "http://c" } ⟨22⟩ rfl rfl rfl rfl
  exact ⟨h.1, h.2.1, h.2.2.1, h.2.2.2.1, h.2.2.2.2.1, h.2.2.2.2.2.1⟩

/-- Witness for `engine_start_early_exit`: a crash observed by the first
warm-up poll with captured output "boot"/"bad" and exit status 3. -/
theorem engine_start_early_exit_witness :
    ∃ st', engine_start_direct "proj" false
        { createDirAll := .ok (), configRead := .ok true,
          configWrite := .error "unused", authVar := some "0",
          freePort := .ok 4321, uuid := "u", resourceDir := none,
          currentBinDir := none,
          resolveEnv := ⟨some "/bin/opencode", [], none, fun _ => true⟩,
          spawnResult := .ok ⟨5, .exited⟩,
          warmupPolls := [⟨"boot", "bad", true, some 3⟩],
          resolveConnectUrl := none, owpenbotHealthPort := .ok 1,
          openworkServerStart := .ok (), owpenbotStartResult := .ok () }
        {} =
        some ⟨.error
            "OpenCode exited immediately with status 3.\n\nstdout:\nboot\n\nstderr:\nbad",
          st',
          [.createDir, .readConfig, .allocPort, .stopEngine, .stopOpenwrk,
           .spawnPrimary]⟩ ∧
      st'.child = none ∧
      (EngineManager.snapshot_locked st').1.running = false ∧
      (∀ t, rustTrim (OutputState.stdout ⟨"boot", "bad", true, some 3⟩) ≠ "" →
         truncate_output
           (rustTrim (OutputState.stdout ⟨"boot", "bad", true, some 3⟩))
           8000 = some t →
         ∃ a b,
           "OpenCode exited immediately with status 3.\n\nstdout:\nboot\n\nstderr:\nbad"
             = a ++ t ++ b) ∧
      (∀ u, rustTrim (OutputState.stderr ⟨"boot", "bad", true, some 3⟩) ≠ "" →
         truncate_output
           (rustTrim (OutputState.stderr ⟨"boot", "bad", true, some 3⟩))
           8000 = some u →
         ∃ a b,
           "OpenCode exited immediately with status 3.\n\nstdout:\nboot\n\nstderr:\nbad"
             = a ++ u ++ b) :=
  engine_start_early_exit "proj" false _ {} 4321 "/bin/opencode"
    ⟨5, .exited⟩ ⟨"boot", "bad", true, some 3⟩ _
    (by decide) rfl rfl rfl (by decide) rfl (by decide) (by decide)

/-- Witness for `engine_start_secondary_failure`: the openwork server spawn
fails with "bind failed" while the engine keeps running. -/
theorem engine_start_secondary_failure_witness :
    ∃ info st', engine_start_direct "proj" false
        { createDirAll := .ok (), configRead := .ok true,
          configWrite := .error "unused", authVar := some "0",
          freePort := .ok 4321, uuid := "u", resourceDir := none,
          currentBinDir := none,
          resolveEnv := ⟨some "/bin/opencode", [], none, fun _ => true⟩,
          spawnResult := .ok ⟨5, .stillRunning⟩, warmupPolls := [],
          resolveConnectUrl := none, owpenbotHealthPort := .ok 1,
          openworkServerStart := .error "bind failed",
          owpenbotStartResult := .ok () }
        {} =
        some ⟨.ok info, st',
          [.createDir, .readConfig, .allocPort, .stopEngine, .stopOpenwrk,
           .spawnPrimary, .startOpenworkServer, .startOwpenbot]⟩ ∧
      info.running = true ∧
      info.base_url = some ("http://127.0.0.1:" ++ toString 4321) ∧
      ("http://127.0.0.1:" ++ toString 4321) ≠ "" ∧
      st'.last_stderr = some "OpenWork server: bind failed" ∧
      info.last_stderr = some "OpenWork server: bind failed" :=
  (engine_start_secondary_failure "proj" false
    { createDirAll := .ok (), configRead := .ok true,
      configWrite := .error "unused", authVar := some "0",
      freePort := .ok 4321, uuid := "u", resourceDir := none,
      currentBinDir := none,
      resolveEnv := ⟨some "/bin/opencode", [], none, fun _ => true⟩,
      spawnResult := .ok ⟨5, .stillRunning⟩, warmupPolls := [],
      resolveConnectUrl := none, owpenbotHealthPort := .ok 1,
      openworkServerStart := .error "bind failed",
      owpenbotStartResult := .ok () } {} 4321 1 "/bin/opencode"
    ⟨5, .stillRunning⟩ (by decide) rfl rfl rfl (by decide) rfl rfl rfl
    rfl).1 "bind failed" "OpenWork server: bind failed" rfl rfl (by decide)

/-- Witness for `resolve_engine_path_spec`: with no sidecar, no override, an
empty search path and no known install, `engine_start` fails with the
accumulated resolution notes in the error. -/
theorem resolve_engine_path_spec_witness :
    ∃ st', engine_start_direct "proj" false
        { createDirAll := .ok (), configRead := .ok true,
          configWrite := .error "unused", authVar := some "0",
          freePort := .ok 4321, uuid := "u", resourceDir := none,
          currentBinDir := none,
          resolveEnv := ⟨none, [], none, fun _ => false⟩,
          spawnResult := .error "unused", warmupPolls := [],
          resolveConnectUrl := none, owpenbotHealthPort := .ok 1,
          openworkServerStart := .ok (), owpenbotStartResult := .ok () }
        {} =
      some ⟨.error (engine_not_found_message
          (resolve_engine_path false none none
            ⟨none, [], none, fun _ => false⟩).2.2),
        st', [.createDir, .readConfig, .allocPort, .stopEngine,
          .stopOpenwrk]⟩ :=
  (resolve_engine_path_spec "r" "c" none none (fun _ => false)
    ⟨none, [], none, fun _ => false⟩ "proj" false
    { createDirAll := .ok (), configRead := .ok true,
      configWrite := .error "unused", authVar := some "0",
      freePort := .ok 4321, uuid := "u", resourceDir := none,
      currentBinDir := none,
      resolveEnv := ⟨none, [], none, fun _ => false⟩,
      spawnResult := .error "unused", warmupPolls := [],
      resolveConnectUrl := none, owpenbotHealthPort := .ok 1,
      openworkServerStart := .ok (), owpenbotStartResult := .ok () }
    {} 4321 (by decide) rfl rfl rfl rfl).2.2.2.2.2.2.1

end OpenCowork
